import Mathlib

/-!
Shallow embedding of the request-dispatch pipeline of `src/api.js`
(the `APIGateway` constructor of the node-apigw repository).

The embedding follows the source line by line:

* JavaScript runtime values that the pipeline inspects (`typeof`,
  truthiness, string coercion) are modelled by `JsVal`.
* The per-endpoint auth middleware (api.js lines 126-156) is
  `authMiddleware`; note that the source declares `let tokenPayload = null`
  and never assigns it (the result of `await enforceAuth(...)` is
  discarded), which the model renders as the literal `none`.
* Path resolution (lines 160-184) is `resolvePathCode`; the source's
  `endpoint.path.replace('', v)` call inserts `v` at position 0 (the first
  match of the empty string), rendered by `jsReplaceEmptyMatch`, and the
  hard-coded extraction regex `/\/users\/:_state_(\w+)/g` is rendered by
  `reForAttrExec`.  When that regex yields `null`, the source indexes into
  `null` (`stateAttributeToAttach[1]`), a TypeError thrown before the
  `try` block: `ResolveResult.thrown`.
* The try/catch/finally forwarding block (lines 192-289) is `handlerTry`
  plus `finallyClear` (the `finally { clearTimeout(timeout) }` clause).
  The body-validation loop (lines 204-238) is `matchedParamsCount`, using
  `jsIndexOf` for JavaScript's `Array.prototype.indexOf` (-1 when absent).
* `fetch` never receives the `AbortController`'s signal in the source
  (lines 239-251), so `FetchCall.signal` is `none`; `fetchSettle` gives
  the semantics of an outbound call with respect to an elapsed timer.
* The external collaborators (the router's matcher `regexpOfPath.exec`,
  the authenticator `enforceAuth`, the upstream server) are inputs:
  `parsedUrl`, `AuthResult`, `UpstreamOutcome`.
* `signJwtToken` (line 261) is not defined or imported anywhere in the
  source, so calling it raises a ReferenceError inside the `try`, which
  the `catch` maps to status 500 plus a log entry.
-/

/-- JavaScript runtime values as far as the pipeline inspects them. -/
inductive JsVal where
  | str (s : String)
  | num (n : Int)
  | boolV (b : Bool)
  | nullV
  | undef
  | obj
deriving DecidableEq, BEq

/-- JavaScript `typeof` on a `JsVal` (note `typeof null` is `"object"`). -/
def typeofJs : JsVal → String
  | JsVal.str _ => "string"
  | JsVal.num _ => "number"
  | JsVal.boolV _ => "boolean"
  | JsVal.nullV => "object"
  | JsVal.undef => "undefined"
  | JsVal.obj => "object"

/-- JavaScript truthiness of a `JsVal`. -/
def jsTruthy : JsVal → Bool
  | JsVal.str s => s != ""
  | JsVal.num n => n != 0
  | JsVal.boolV b => b
  | JsVal.nullV => false
  | JsVal.undef => false
  | JsVal.obj => true

/-- JavaScript string coercion of a `JsVal` (as used by `String.replace`). -/
def jsToString : JsVal → String
  | JsVal.str s => s
  | JsVal.num n => toString n
  | JsVal.boolV b => if b then "true" else "false"
  | JsVal.nullV => "null"
  | JsVal.undef => "undefined"
  | JsVal.obj => "[object Object]"

/-- Property lookup on a JavaScript object modelled as an association
list; a missing key yields `undefined`. -/
def jsLookup : List (String × JsVal) → String → JsVal
  | [], _ => JsVal.undef
  | kv :: rest, k => if kv.1 == k then kv.2 else jsLookup rest k

/-- Membership of a string in a list of keys. -/
def listContainsStr : List String → String → Bool
  | [], _ => false
  | s :: rest, k => s == k || listContainsStr rest k

/-- JavaScript `Array.prototype.indexOf` on a list of strings:
the index of the first occurrence, or `-1` when absent. -/
def jsIndexOf : List String → String → Int
  | [], _ => -1
  | s :: rest, k =>
    if s == k then 0
    else
      let r := jsIndexOf rest k
      if r == -1 then -1 else r + 1

/-- ASCII lower-casing of one character (JavaScript `toLowerCase` on the
method strings appearing in endpoint configurations). -/
def asciiToLower (c : Char) : Char :=
  if 65 ≤ c.toNat && c.toNat ≤ 90 then Char.ofNat (c.toNat + 32) else c

/-- JavaScript `String.prototype.toLowerCase`, ASCII fragment. -/
def jsToLower (s : String) : String := String.mk (s.toList.map asciiToLower)

/-- Substring test on character lists, used for
`endpoint.path.includes(':_state_')` (api.js line 170). -/
def strContainsAux (pat : List Char) : List Char → Bool
  | [] => pat.isEmpty
  | c :: rest => List.isPrefixOf pat (c :: rest) || strContainsAux pat rest

/-- JavaScript `String.prototype.includes`. -/
def strContains (s pat : String) : Bool := strContainsAux pat.toList s.toList

/-- Word characters of the regex class `\w`, namely `[A-Za-z0-9_]`. -/
def isWordChar (c : Char) : Bool := c.isAlpha || c.isDigit || c == '_'

/-- Literal part of the hard-coded extraction regex
`/\/users\/:_state_(\w+)/g` at api.js line 173. -/
def reForAttrLit : List Char := "/users/:_state_".toList

/-- Scan for the first position where `/\/users\/:_state_(\w+)/` matches,
returning the capture group `(\w+)`; `none` when the regex fails. -/
def reForAttrExecAux : List Char → Option String
  | [] => none
  | c :: rest =>
    if List.isPrefixOf reForAttrLit (c :: rest) then
      let after := List.drop reForAttrLit.length (c :: rest)
      let w := after.takeWhile isWordChar
      if w.isEmpty then reForAttrExecAux rest else some (String.mk w)
    else reForAttrExecAux rest

/-- `reForAttr.exec(endpoint.path)` of api.js line 175, reduced to its
capture group (the source only uses `stateAttributeToAttach[1]`). -/
def reForAttrExec (s : String) : Option String := reForAttrExecAux s.toList

/-- JavaScript `s.replace('', v)`: the first match of the empty-string
pattern is at index 0, so the replacement is inserted in front of `s`
(api.js line 176 — the template marker is NOT replaced). -/
def jsReplaceEmptyMatch (s v : String) : String := v ++ s

/-- One entry of `endpoint.body.required`: a single-key mapping from the
field name to an expected `typeof` name, or `null` (`none`). -/
structure ReqParam where
  key : String
  val : Option String
deriving DecidableEq, BEq

/-- The `endpoint.auth.jwt` configuration fragment read by the pipeline. -/
structure AuthJwtCfg where
  stripFromToken : Option String
  signTokenData : Bool
deriving DecidableEq, BEq

/-- An endpoint definition, with exactly the fields `src/api.js` reads:
`name`, `method`, `path`, `remoteLocation`, `remotePath`, `timeout`,
`auth` (its `jwt` fragment), `body.required` (as `bodyRequired`) and
`forwardError`. -/
structure Endpoint where
  name : String
  method : String
  path : String
  remoteLocation : String
  remotePath : String
  timeout : Option Nat
  auth : Option AuthJwtCfg
  bodyRequired : Option (List ReqParam)
  forwardError : Bool
deriving DecidableEq, BEq

/-- `endpoint.timeout || 300` (api.js line 190): `0` is falsy, so it also
falls back to the literal default `300`. -/
def timeoutMs (e : Endpoint) : Nat :=
  match e.timeout with
  | some t => if t != 0 then t else 300
  | none => 300

/-- State of the per-request `setTimeout` timer. `armed` marks an exit
from the try block before the `finally` clause has run; `neverArmed`
marks termination before `setTimeout` was reached. -/
inductive TimerState where
  | neverArmed
  | armed
  | cleared
deriving DecidableEq, BEq

/-- Client-visible response bodies the pipeline can produce. -/
inductive BodyVal where
  | text (s : String)
  | emptyObj
  | envelope (statusText : String) (bodyStream : JsVal)
  | data (v : JsVal)
deriving DecidableEq, BEq

/-- One outbound `fetch` call exactly as the source builds it
(api.js lines 239-251): note `signal` — the `AbortController`'s signal
is never put into the options object, so it is always `none`. -/
structure FetchCall where
  url : String
  method : String
  body : Option String
  headers : List (String × String)
  signal : Option Unit
deriving DecidableEq, BEq

/-- `commonHeaders` of api.js lines 194-196. -/
def commonHeaders : List (String × String) := [("Content-Type", "application/json")]

/-- JSON.stringify of one value (`undefined` fields are omitted by
returning `none`). -/
def jsonOfVal : JsVal → Option String
  | JsVal.str s => some ("\"" ++ s ++ "\"")
  | JsVal.num n => some (toString n)
  | JsVal.boolV b => some (if b then "true" else "false")
  | JsVal.nullV => some "null"
  | JsVal.undef => none
  | JsVal.obj => some "\x7b\x7d"

/-- `JSON.stringify(ctx.request.body)` on a flat object. -/
def jsonStringify (body : List (String × JsVal)) : String :=
  let fields := body.filterMap (fun kv => (jsonOfVal kv.2).map (fun v => "\"" ++ kv.1 ++ "\":" ++ v))
  "\x7b" ++ String.intercalate "," fields ++ "\x7d"

/-- The options object of the post/put/patch `fetch` call
(api.js lines 239-243). -/
def postFetchCall (url : String) (e : Endpoint) (reqBody : List (String × JsVal)) : FetchCall :=
  { url := url, method := e.method, body := some (jsonStringify reqBody),
    headers := commonHeaders, signal := none }

/-- The options object of the get/delete `fetch` call
(api.js lines 246-250). -/
def getFetchCall (url : String) (e : Endpoint) : FetchCall :=
  { url := url, method := e.method, body := none,
    headers := commonHeaders, signal := none }

/-- What the upstream side does with the outbound call: settle with a
response, or fail at transport level. -/
structure UpstreamResponse where
  status : Nat
  statusText : String
  bodyStream : JsVal
  jsonResult : Option JsVal
  textResult : String
deriving DecidableEq, BEq

/-- Outcome of the outbound call as produced by the environment. -/
inductive UpstreamOutcome where
  | ok (r : UpstreamResponse)
  | netErr
deriving DecidableEq, BEq

/-- `response.ok` of node-fetch: status in the 200-299 range. -/
def respOk (r : UpstreamResponse) : Bool := 200 ≤ r.status && r.status < 300

/-- Semantics of an outbound `fetch` with respect to the per-request
timer: an elapsed timer turns the call into an abort error ONLY when the
options object carries the controller's signal.  The source never passes
the signal, so the `timedOut` flag can never affect the outcome. -/
def fetchSettle (signal : Option Unit) (timedOut : Bool) (up : UpstreamOutcome) : UpstreamOutcome :=
  if signal.isSome && timedOut then UpstreamOutcome.netErr else up

/-- Outcome of the authenticator collaborator `enforceAuth`
(`lib/auth`, external): either the decoded claims, or a thrown
`{status, message}`. -/
inductive AuthResult where
  | ok (claims : List (String × JsVal))
  | fail (status : Nat) (message : String)
deriving DecidableEq, BEq

/-- Result of the auth middleware: halt with a response, or pass control
to the request handler with the (possibly updated) `ctx.state`. -/
inductive MWResult where
  | halt (status : Nat) (body : BodyVal)
  | next (state : List (String × JsVal))
deriving DecidableEq, BEq

/-- `ctx.state[k] = v`: JavaScript property assignment on the
request-scoped state object. -/
def setState (st : List (String × JsVal)) (k : String) (v : JsVal) : List (String × JsVal) :=
  if listContainsStr (st.map Prod.fst) k then
    st.map (fun kv => if kv.1 == k then (kv.1, v) else kv)
  else st ++ [(k, v)]

/-- The `Object.keys(tokenPayload).forEach(...)` loop of api.js lines
147-151: copy the one claim whose key equals `stripFromToken` into
`ctx.state` under its own name. -/
def stripFromTokenLoop (strip : String) (payload : List (String × JsVal))
    (state0 : List (String × JsVal)) : List (String × JsVal) :=
  payload.foldl (fun st kv => if kv.1 == strip then setState st strip kv.2 else st) state0

/-- The auth middleware of api.js lines 126-156.  The source declares
`let tokenPayload = null` (line 128) and never assigns it — the value
returned by `await enforceAuth(ctx, endpoint, ...)` on line 132 is
discarded — so `tokenPayload` is the literal `none` here, and the
`if (stripFromToken && tokenPayload)` guard (line 146) can never be
taken.  On an authenticator failure the middleware sets
`ctx.status = authError.status` and `ctx.body = authError.message || {}`
and returns without calling `next()`. -/
def authMiddleware (e : Endpoint) (authOutcome : AuthResult)
    (state0 : List (String × JsVal)) : MWResult :=
  let tokenPayload : Option (List (String × JsVal)) := none
  match e.auth with
  | none => MWResult.next state0
  | some cfg =>
    match authOutcome with
    | AuthResult.fail s m =>
      MWResult.halt s (if m == "" then BodyVal.emptyObj else BodyVal.text m)
    | AuthResult.ok _claims =>
      match cfg.stripFromToken, tokenPayload with
      | some strip, some payload =>
        if strip == "" then MWResult.next state0
        else MWResult.next (stripFromTokenLoop strip payload state0)
      | _, _ => MWResult.next state0

/-- Result of the path-resolution block: a resolved URL, or the TypeError
raised by `stateAttributeToAttach[1]` when `reForAttr.exec` returned
`null` (api.js line 176), thrown before the `try` block begins. -/
inductive ResolveResult where
  | ok (url : String)
  | thrown
deriving DecidableEq, BEq

/-- Path resolution, api.js lines 160-184.  `parsedUrl` is the result of
`regexpOfPath.exec(ctx.request.url)` (the compiled matcher is external),
reduced to its full-match component `parsedUrl[0]`. -/
def resolvePathCode (e : Endpoint) (state : List (String × JsVal))
    (parsedUrl : Option String) : ResolveResult :=
  match parsedUrl with
  | some matched =>
    if strContains e.path ":_state_" then
      match reForAttrExec e.path with
      | none => ResolveResult.thrown
      | some attr =>
        let v := jsLookup state attr
        ResolveResult.ok (e.remoteLocation ++ jsReplaceEmptyMatch e.path (jsToString v))
    else ResolveResult.ok (e.remoteLocation ++ matched)
  | none => ResolveResult.ok (e.remoteLocation ++ e.remotePath)

/-- The body-validation loop of api.js lines 204-238: for each entry of
`body.required`, look the entry's key up among the body's keys with
`indexOf`; when found and the entry's value is truthy, additionally
compare `typeof bodyParams[searchableBodyKeys[foundKey]]` with it;
count the matches. -/
def matchedParamsCount (bodyParams : List (String × JsVal)) : List ReqParam → Nat
  | [] => 0
  | rp :: rest =>
    let searchableBodyKeys := bodyParams.map Prod.fst
    let foundKey := jsIndexOf searchableBodyKeys rp.key
    (if foundKey > -1 then
      match rp.val with
      | some paramVal =>
        if paramVal == "" then 1
        else if typeofJs (jsLookup bodyParams (searchableBodyKeys.getD foundKey.toNat "")) == paramVal then 1
        else 0
      | none => 1
    else 0) + matchedParamsCount bodyParams rest

/-- Stated from the specification's wording for one required entry: the
key is present among the request body's keys and, when a type name is
given, the value's runtime primitive type equals it. -/
def specEntrySatisfied (bodyParams : List (String × JsVal)) (rp : ReqParam) : Bool :=
  listContainsStr (bodyParams.map Prod.fst) rp.key &&
    match rp.val with
    | some t => typeofJs (jsLookup bodyParams rp.key) == t
    | none => true

/-- Number of required entries satisfied, in the specification's sense. -/
def specSatisfiedCount (bodyParams : List (String × JsVal)) : List ReqParam → Nat
  | [] => 0
  | rp :: rest =>
    (if specEntrySatisfied bodyParams rp then 1 else 0) + specSatisfiedCount bodyParams rest

/-- `endpoint?.auth?.jwt?.signTokenData` (api.js line 260). -/
def signTokenDataFlag (e : Endpoint) : Bool :=
  match e.auth with
  | some cfg => cfg.signTokenData
  | none => false

/-- Final shape of a completed request: client status and body, the
outbound calls issued, whether `this.log.publish` received an error, and
the state of the per-request timer. -/
structure DoneRes where
  status : Nat
  body : Option BodyVal
  calls : List FetchCall
  logged : Bool
  timer : TimerState
deriving DecidableEq, BEq

/-- Outcome of the request handler: a completed response, or an uncaught
exception escaping the handler (thrown outside its try/catch). -/
inductive Outcome where
  | crash (timer : TimerState)
  | done (r : DoneRes)
deriving DecidableEq, BEq

/-- Calls issued, on either outcome. -/
def outcomeCalls : Outcome → List FetchCall
  | Outcome.crash _ => []
  | Outcome.done r => r.calls

/-- Client body, on either outcome (an uncaught crash sets none). -/
def outcomeBody : Outcome → Option BodyVal
  | Outcome.crash _ => none
  | Outcome.done r => r.body

/-- Timer state, on either outcome. -/
def outcomeTimer : Outcome → TimerState
  | Outcome.crash t => t
  | Outcome.done r => r.timer

/-- Whether the handler completed (no uncaught exception). -/
def outcomeIsDone : Outcome → Bool
  | Outcome.crash _ => false
  | Outcome.done _ => true

/-- The relay of one settled `fetch` (api.js lines 239-289, after
validation): transport failure or abort is caught and mapped to 500 plus
a log entry; on `response.ok`, the payload is `clone().json()` with a
`text()` fallback, then — when `signTokenData` is set — the call to the
undefined identifier `signJwtToken` (line 261) raises a ReferenceError
inside the `try`, caught as 500 plus a log entry; otherwise the client
status is the upstream status and the body is set only when the payload
is truthy.  On a non-ok status, the status is propagated and, unless
`forwardError` is set, the body becomes the envelope
`\x7bstatus: response.statusText, text: response.body\x7d`; the
`forwardError` branch of the source (lines 275-276) is empty, so it sets
no body at all.  Every result still carries `TimerState.armed`: the
`finally` clause is modelled separately by `finallyClear`. -/
def afterFetch (e : Endpoint) (call : FetchCall) (upstream : UpstreamOutcome)
    (timedOut : Bool) : Outcome :=
  match fetchSettle call.signal timedOut upstream with
  | UpstreamOutcome.netErr =>
    Outcome.done { status := 500, body := none, calls := [call], logged := true, timer := TimerState.armed }
  | UpstreamOutcome.ok r =>
    if respOk r then
      let data := match r.jsonResult with
        | some v => v
        | none => JsVal.str r.textResult
      if signTokenDataFlag e then
        Outcome.done { status := 500, body := none, calls := [call], logged := true, timer := TimerState.armed }
      else
        Outcome.done
          { status := r.status,
            body := if jsTruthy data then some (BodyVal.data data) else none,
            calls := [call], logged := false, timer := TimerState.armed }
    else
      Outcome.done
        { status := r.status,
          body := if e.forwardError then none else some (BodyVal.envelope r.statusText r.bodyStream),
          calls := [call], logged := false, timer := TimerState.armed }

/-- The try block of api.js lines 192-286, entered with the timer armed.
For post/put/patch methods, the body-validation loop may return 403
before any `fetch`; a method outside the five handled ones leaves
`response` undefined, so `response.ok` raises a TypeError caught as 500
plus a log entry. -/
def handlerTry (e : Endpoint) (remotePath : String) (reqBody : List (String × JsVal))
    (upstream : UpstreamOutcome) (timedOut : Bool) : Outcome :=
  if jsToLower e.method == "post" || jsToLower e.method == "put" || jsToLower e.method == "patch" then
    match e.bodyRequired with
    | some requiredParams =>
      if matchedParamsCount reqBody requiredParams < requiredParams.length then
        Outcome.done
          { status := 403,
            body := some (BodyVal.text "Request missing expected body parameters"),
            calls := [], logged := false, timer := TimerState.armed }
      else afterFetch e (postFetchCall remotePath e reqBody) upstream timedOut
    | none => afterFetch e (postFetchCall remotePath e reqBody) upstream timedOut
  else if jsToLower e.method == "get" || jsToLower e.method == "delete" then
    afterFetch e (getFetchCall remotePath e) upstream timedOut
  else
    Outcome.done { status := 500, body := none, calls := [], logged := true, timer := TimerState.armed }

/-- The `finally \x7b clearTimeout(timeout) \x7d` clause of api.js lines
287-289: every completion of the try block has its timer cleared. -/
def finallyClear : Outcome → Outcome
  | Outcome.done r =>
    Outcome.done
      { status := r.status, body := r.body, calls := r.calls,
        logged := r.logged, timer := TimerState.cleared }
  | Outcome.crash t => Outcome.crash t

/-- The request handler after path resolution: a resolution TypeError
escapes before the timer is armed (api.js lines 176 and 186-192);
otherwise the timer is armed and the try block runs under the `finally`
clause. -/
def handlerAfterResolve (e : Endpoint) (reqBody : List (String × JsVal))
    (upstream : UpstreamOutcome) (timedOut : Bool) : ResolveResult → Outcome
  | ResolveResult.thrown => Outcome.crash TimerState.neverArmed
  | ResolveResult.ok remotePath => finallyClear (handlerTry e remotePath reqBody upstream timedOut)

/-- The request handler of api.js lines 158-290. -/
def handler (e : Endpoint) (state : List (String × JsVal)) (parsedUrl : Option String)
    (reqBody : List (String × JsVal)) (upstream : UpstreamOutcome) (timedOut : Bool) : Outcome :=
  handlerAfterResolve e reqBody upstream timedOut (resolvePathCode e state parsedUrl)

/-- One whole request through the registered middleware pair: the auth
middleware, then — only when it called `next()` — the handler. -/
def processRequest (e : Endpoint) (authOutcome : AuthResult)
    (state0 : List (String × JsVal)) (parsedUrl : Option String)
    (reqBody : List (String × JsVal)) (upstream : UpstreamOutcome) (timedOut : Bool) : Outcome :=
  match authMiddleware e authOutcome state0 with
  | MWResult.halt s b =>
    Outcome.done
      { status := s, body := some b, calls := [], logged := false,
        timer := TimerState.neverArmed }
  | MWResult.next st => handler e st parsedUrl reqBody upstream timedOut

/-- A compiled route as registered on the router (api.js lines 114-124):
the lower-cased method, the path template and the route name. -/
structure CompiledRoute where
  method : String
  path : String
  name : String
deriving DecidableEq, BEq

/-- Methods for which `router[method]` is a function. -/
def routerMethods : List String :=
  ["get", "post", "put", "patch", "delete", "head", "options"]

/-- Failure mode of the external `path-to-regexp` compiler invoked at
api.js line 119: `pathToRegexp(endpoint.path)` throws at startup for a
malformed template, in particular a `:` not followed by a parameter
name.  The library's full grammar is external; this captures its
documented "missing parameter name" startup throw so that registration
keeps the fatal configuration-error path. -/
def templateCompilesAux : List Char → Bool
  | [] => true
  | c :: rest =>
    if c = ':' then
      match rest with
      | [] => false
      | d :: _ => isWordChar d && templateCompilesAux rest
    else templateCompilesAux rest

/-- Whether `pathToRegexp(endpoint.path)` compiles without throwing. -/
def templateCompiles (path : String) : Bool := templateCompilesAux path.toList

/-- The `endpoints.forEach` registration loop of api.js lines 114-124:
each endpoint's template is compiled with `pathToRegexp(endpoint.path)`
(line 119, a startup throw for a malformed template), then registered
with `router[method](name, path, middleware, handler)`; an unknown
method makes `router[method]` undefined, a TypeError at startup
(`none`).  No uniqueness check of (method, path) is performed
anywhere. -/
def registerEndpoints : List Endpoint → Option (List CompiledRoute)
  | [] => some []
  | e :: rest =>
    if templateCompiles e.path then
      if listContainsStr routerMethods (jsToLower e.method) then
        (registerEndpoints rest).map
          (fun rs => { method := jsToLower e.method, path := e.path, name := e.name } :: rs)
      else none
    else none

/-- All inputs of one request, bundled to state properties of repeated
calls. -/
structure RequestInput where
  endpoint : Endpoint
  authOutcome : AuthResult
  state0 : List (String × JsVal)
  parsedUrl : Option String
  reqBody : List (String × JsVal)
  upstream : UpstreamOutcome
  timedOut : Bool

/-- Run a sequence of independent requests. -/
def runAll (reqs : List RequestInput) : List Outcome :=
  reqs.map (fun i =>
    processRequest i.endpoint i.authOutcome i.state0 i.parsedUrl i.reqBody i.upstream i.timedOut)

/-- A timer state that is not left armed. -/
def timerDisarmed : TimerState → Bool
  | TimerState.armed => false
  | _ => true

/-! ### Concrete endpoints, responses and requests used by the theorems -/

/-- Endpoint whose path template embeds the state-token marker for the
claim `userId`, as in the specification's PathResolver example. -/
def epStateToken : Endpoint :=
  { name := "user", method := "get", path := "/users/:_state_userId",
    remoteLocation := "http://up", remotePath := "/users", timeout := none,
    auth := some { stripFromToken := some "userId", signTokenData := false },
    bodyRequired := none, forwardError := false }

/-- Endpoint with an auth requirement naming a claim to strip. -/
def epStrip : Endpoint :=
  { name := "u", method := "get", path := "/u",
    remoteLocation := "http://r", remotePath := "/u", timeout := none,
    auth := some { stripFromToken := some "userId", signTokenData := false },
    bodyRequired := none, forwardError := false }

/-- Plain GET endpoint with the default timeout, no auth. -/
def epGetPlain : Endpoint :=
  { name := "c3", method := "get", path := "/c3",
    remoteLocation := "http://c3up", remotePath := "/c3", timeout := some 300,
    auth := none, bodyRequired := none, forwardError := false }

/-- POST endpoint with the specification's example required-body list
`[\x7bname: "string"\x7d, \x7bage: null\x7d]`. -/
def epPostReq : Endpoint :=
  { name := "things", method := "post", path := "/things",
    remoteLocation := "http://up", remotePath := "/things", timeout := none,
    auth := none,
    bodyRequired := some [{ key := "name", val := some "string" }, { key := "age", val := none }],
    forwardError := false }

/-- Endpoint with an auth requirement and no strip configuration. -/
def epAuthOnly : Endpoint :=
  { name := "a", method := "get", path := "/a",
    remoteLocation := "http://aup", remotePath := "/a", timeout := none,
    auth := some { stripFromToken := none, signTokenData := false },
    bodyRequired := none, forwardError := false }

/-- GET endpoint with `forwardError` set. -/
def epFwdErr : Endpoint :=
  { name := "f", method := "get", path := "/f",
    remoteLocation := "http://fup", remotePath := "/f", timeout := none,
    auth := none, bodyRequired := none, forwardError := true }

/-- GET endpoint with `forwardError` not set. -/
def epEnvelope : Endpoint :=
  { name := "e", method := "get", path := "/e",
    remoteLocation := "http://eup", remotePath := "/e", timeout := none,
    auth := none, bodyRequired := none, forwardError := false }

/-- GET endpoint requesting signed response data
(`auth.jwt.signTokenData`). -/
def epSign : Endpoint :=
  { name := "s", method := "get", path := "/s",
    remoteLocation := "http://sup", remotePath := "/s", timeout := none,
    auth := some { stripFromToken := none, signTokenData := true },
    bodyRequired := none, forwardError := false }

/-- First of two endpoint definitions sharing (method, path). -/
def epDupA : Endpoint :=
  { name := "a", method := "get", path := "/dup",
    remoteLocation := "http://d", remotePath := "/dup", timeout := none,
    auth := none, bodyRequired := none, forwardError := false }

/-- Second of two endpoint definitions sharing (method, path). -/
def epDupB : Endpoint :=
  { name := "b", method := "get", path := "/dup",
    remoteLocation := "http://d", remotePath := "/dup", timeout := none,
    auth := none, bodyRequired := none, forwardError := false }

/-- GET endpoint whose template contains `:_state_` without the
hard-coded `/users/:_state_<word>` shape. -/
def epBadMarker : Endpoint :=
  { name := "items", method := "get", path := "/items/:_state_userId",
    remoteLocation := "http://iup", remotePath := "/items", timeout := none,
    auth := none, bodyRequired := none, forwardError := false }

/-- Upstream 200 response whose JSON payload is the string `"hi"`. -/
def resp200hi : UpstreamResponse :=
  { status := 200, statusText := "OK", bodyStream := JsVal.str "hi",
    jsonResult := some (JsVal.str "hi"), textResult := "hi" }

/-- Upstream 404 response with body `"oops"` that is not valid JSON. -/
def resp404oops : UpstreamResponse :=
  { status := 404, statusText := "Not Found", bodyStream := JsVal.str "oops",
    jsonResult := none, textResult := "oops" }

/-- Upstream 200 response whose JSON payload is an object. -/
def respJsonObj : UpstreamResponse :=
  { status := 200, statusText := "OK", bodyStream := JsVal.obj,
    jsonResult := some JsVal.obj, textResult := "" }

/-! ### C1 -/

/-- C1: the claim says the resolved upstream URL for a state-token
template, with `userId = "42"` captured, equals
`remoteLocation + "/users/42"` exactly.  The source instead calls
`endpoint.path.replace('', value)`, which inserts the value at position
0 and leaves the `:_state_userId` marker in place: the resolved URL is
`"http://up42/users/:_state_userId"`, not `"http://up/users/42"`. -/
theorem gw_c1_state_token_substitution_bug :
    resolvePathCode epStateToken [("userId", JsVal.str "42")] (some "/users/42") =
      ResolveResult.ok "http://up42/users/:_state_userId" ∧
    (resolvePathCode epStateToken [("userId", JsVal.str "42")] (some "/users/42") ==
      ResolveResult.ok "http://up/users/42") = false := by
  exact ⟨by decide, by decide⟩

/-! ### C2 -/

/-- C2: the claim says that after a successful authentication with
`stripFromToken = "userId"`, the request state maps `userId` to the
claim's value from the decoded token.  In the source `tokenPayload` is
declared `null` and never assigned (the result of `enforceAuth` is
discarded), so the strip block never runs and the state stays empty —
while the copy loop itself, had it received the payload, would have
written the claim. -/
theorem gw_c2_strip_claim_never_written :
    authMiddleware epStrip (AuthResult.ok [("userId", JsVal.str "42")]) [] =
      MWResult.next [] ∧
    jsLookup [] "userId" = JsVal.undef ∧
    stripFromTokenLoop "userId" [("userId", JsVal.str "42")] [] =
      [("userId", JsVal.str "42")] := by
  exact ⟨by decide, by decide, by decide⟩

/-! ### C3 -/

/-- C3: the claim says an upstream call still unsettled when the timeout
elapses is cancelled and mapped to a logged 500.  The source never puts
the `AbortController`'s signal into either `fetch` options object, so
firing the timer aborts nothing: with the timer elapsed
(`timedOut = true`) the upstream 200 response is relayed normally
(status 200, no log entry) instead of being cancelled. -/
theorem gw_c3_timeout_never_cancels :
    (∀ (url : String) (e : Endpoint) (rb : List (String × JsVal)),
      (postFetchCall url e rb).signal = none) ∧
    (∀ (url : String) (e : Endpoint), (getFetchCall url e).signal = none) ∧
    (∀ (t : Bool) (up : UpstreamOutcome), fetchSettle none t up = up) ∧
    processRequest epGetPlain (AuthResult.ok []) [] (some "/c3") []
        (UpstreamOutcome.ok resp200hi) true =
      Outcome.done
        { status := 200, body := some (BodyVal.data (JsVal.str "hi")),
          calls := [getFetchCall "http://c3up/c3" epGetPlain], logged := false,
          timer := TimerState.cleared } := by
  refine ⟨fun _ _ _ => rfl, fun _ _ => rfl, fun t up => ?_, by decide⟩
  simp [fetchSettle]

/-! ### C5 counterexample -/

/-- C5 fails as stated on an authenticator failure whose message is the
empty string: `ctx.body = authError.message || \x7b\x7d` replaces the
falsy message with an empty object, so the client body is not the
authenticator's message. -/
theorem gw_c5_empty_message_cex :
    processRequest epAuthOnly (AuthResult.fail 401 "") [] none []
        (UpstreamOutcome.ok resp200hi) false =
      Outcome.done
        { status := 401, body := some BodyVal.emptyObj, calls := [],
          logged := false, timer := TimerState.neverArmed } ∧
    ((some BodyVal.emptyObj : Option BodyVal) == some (BodyVal.text "")) = false := by
  exact ⟨by decide, by decide⟩

/-! ### C6 counterexample -/

/-- C6 fails as stated when `forwardError` is set: the source's
`if (endpoint.forwardError)` branch is empty, so the upstream body
`"oops"` is not passed through — the client receives status 404 with no
body at all. -/
theorem gw_c6_forward_error_cex :
    handler epFwdErr [] (some "/f") [] (UpstreamOutcome.ok resp404oops) false =
      Outcome.done
        { status := 404, body := none,
          calls := [getFetchCall "http://fup/f" epFwdErr], logged := false,
          timer := TimerState.cleared } ∧
    (outcomeBody (handler epFwdErr [] (some "/f") [] (UpstreamOutcome.ok resp404oops) false)
        == some (BodyVal.data (JsVal.str "oops"))) = false := by
  exact ⟨by decide, by decide⟩

/-! ### C7 -/

/-- C7: the claim says that with `auth.jwt.signTokenData` set the parsed
payload is signed and returned with the upstream status.  The source
calls `signJwtToken(data)`, an identifier that is neither defined nor
imported in `api.js`: the call raises a ReferenceError inside the try
block, so a successful upstream 200 with a JSON payload is answered with
a logged 500 and no body instead of the signed payload. -/
theorem gw_c7_sign_token_reference_error :
    processRequest epSign (AuthResult.ok []) [] (some "/s") []
        (UpstreamOutcome.ok respJsonObj) false =
      Outcome.done
        { status := 500, body := none,
          calls := [getFetchCall "http://sup/s" epSign], logged := true,
          timer := TimerState.cleared } := by
  decide

/-! ### C8 counterexample -/

/-- C8 fails as stated: two endpoint definitions sharing the pair
(get, /dup) are both registered by the `endpoints.forEach` loop — there
is no duplicate check, and startup succeeds instead of rejecting the
configuration. -/
theorem gw_c8_duplicate_routes_cex :
    registerEndpoints [epDupA, epDupB] =
      some [{ method := "get", path := "/dup", name := "a" },
            { method := "get", path := "/dup", name := "b" }] ∧
    (registerEndpoints [epDupA, epDupB] == none) = false := by
  exact ⟨by decide, by decide⟩

/-! ### C5 amended -/

/-- C5 amended: on any authenticator failure the middleware
short-circuits the pipeline — the client gets exactly the reported
status, the body is the reported message when that message is non-empty
(an empty message is replaced by an empty object, from
`authError.message || \x7b\x7d`), and no upstream call is made. -/
theorem gw_c5_auth_failure_short_circuit
    (e : Endpoint) (cfg : AuthJwtCfg) (s : Nat) (m : String)
    (state0 : List (String × JsVal)) (parsedUrl : Option String)
    (reqBody : List (String × JsVal)) (upstream : UpstreamOutcome) (timedOut : Bool) :
    processRequest { e with auth := some cfg } (AuthResult.fail s m)
        state0 parsedUrl reqBody upstream timedOut =
      Outcome.done
        { status := s,
          body := some (if m == "" then BodyVal.emptyObj else BodyVal.text m),
          calls := [], logged := false, timer := TimerState.neverArmed } := by
  rfl

/-! ### C10 -/

/-- C10: for a matched request to an endpoint whose template contains
`:_state_` but on which the hard-coded extraction regex
`/\/users\/:_state_(\w+)/` fails, path resolution indexes into `null`
and the TypeError escapes the handler uncaught — the crash happens
before the try/catch, so neither a resolved URL nor the controlled
logged-500 path is produced. -/
theorem gw_c10_malformed_state_marker_crash
    (e : Endpoint) (state : List (String × JsVal)) (reqBody : List (String × JsVal))
    (upstream : UpstreamOutcome) (timedOut : Bool) (u : String)
    (hmark : strContains e.path ":_state_" = true)
    (hre : reForAttrExec e.path = none) :
    handler e state (some u) reqBody upstream timedOut =
      Outcome.crash TimerState.neverArmed := by
  simp [handler, resolvePathCode, hmark, hre, handlerAfterResolve]

/-- Witness for C10 at the concrete template `/items/:_state_userId`. -/
theorem gw_c10_malformed_state_marker_crash_witness :
    strContains epBadMarker.path ":_state_" = true ∧
    reForAttrExec epBadMarker.path = none ∧
    handler epBadMarker [] (some "/items/7") [] (UpstreamOutcome.ok resp200hi) false =
      Outcome.crash TimerState.neverArmed :=
  ⟨by decide, by decide,
    gw_c10_malformed_state_marker_crash epBadMarker [] [] (UpstreamOutcome.ok resp200hi)
      false "/items/7" (by decide) (by decide)⟩

/-! ### C8 amended -/

/-- C8 amended: route compilation performs no duplicate check —
duplicate (method, path) pairs are never a reason to reject the
configuration.  For every endpoint list whose templates compile and
whose methods are router-supported, duplicates included, registration
succeeds with one compiled route per definition (a malformed template
or unsupported method still fails startup, per `registerEndpoints`). -/
theorem gw_c8_no_duplicate_check
    (endpoints : List Endpoint)
    (hv : endpoints.all (fun e =>
      templateCompiles e.path && listContainsStr routerMethods (jsToLower e.method)) = true) :
    ∃ rs, registerEndpoints endpoints = some rs ∧ rs.length = endpoints.length := by
  induction endpoints with
  | nil => exact ⟨[], rfl, rfl⟩
  | cons e rest ih =>
    rw [List.all_cons, Bool.and_eq_true] at hv
    obtain ⟨hc, hrest⟩ := hv
    rw [Bool.and_eq_true] at hc
    obtain ⟨rs, hrs, hlen⟩ := ih hrest
    refine ⟨{ method := jsToLower e.method, path := e.path, name := e.name } :: rs, ?_, ?_⟩
    · simp [registerEndpoints, hc.1, hc.2, hrs]
    · simp [hlen]

/-- Witness for C8 amended at the duplicate pair (get, /dup). -/
theorem gw_c8_no_duplicate_check_witness :
    ∃ rs, registerEndpoints [epDupA, epDupB] = some rs ∧ rs.length = 2 :=
  gw_c8_no_duplicate_check [epDupA, epDupB] (by decide)

/-! ### C9 -/

/-- Helper: the relay of a settled fetch always completes (no uncaught
exception escapes the try block from `afterFetch`). -/
theorem afterFetch_isDone (e : Endpoint) (c : FetchCall) (up : UpstreamOutcome)
    (t : Bool) : outcomeIsDone (afterFetch e c up t) = true := by
  unfold afterFetch
  repeat' split
  all_goals rfl

/-- Helper: the try block always completes. -/
theorem handlerTry_isDone (e : Endpoint) (rp : String) (rb : List (String × JsVal))
    (up : UpstreamOutcome) (t : Bool) : outcomeIsDone (handlerTry e rp rb up t) = true := by
  unfold handlerTry
  split
  · split
    · split
      · rfl
      · exact afterFetch_isDone _ _ _ _
    · exact afterFetch_isDone _ _ _ _
  · split
    · exact afterFetch_isDone _ _ _ _
    · rfl

/-- Helper: the finally clause leaves no completed outcome armed. -/
theorem finallyClear_timer (o : Outcome) (h : outcomeIsDone o = true) :
    timerDisarmed (outcomeTimer (finallyClear o)) = true := by
  cases o with
  | done r => rfl
  | crash t => exact absurd h (by simp [outcomeIsDone])

/-- Helper: one whole request never finishes with an armed timer. -/
theorem processRequest_timer_disarmed (e : Endpoint) (a : AuthResult)
    (st : List (String × JsVal)) (pu : Option String) (rb : List (String × JsVal))
    (up : UpstreamOutcome) (t : Bool) :
    timerDisarmed (outcomeTimer (processRequest e a st pu rb up t)) = true := by
  unfold processRequest
  cases ham : authMiddleware e a st with
  | halt s b => rfl
  | next st2 =>
    show timerDisarmed (outcomeTimer (handler e st2 pu rb up t)) = true
    unfold handler handlerAfterResolve
    cases hres : resolvePathCode e st2 pu with
    | thrown => rfl
    | ok rp => exact finallyClear_timer _ (handlerTry_isDone e rp rb up t)

/-- C9: the timer armed before the upstream call is disarmed on every
exit path of the forwarding stage (success, non-ok status, validation
return, thrown error), and a request halted or crashed before arming
never arms it — so across any sequence of requests no outcome leaves an
armed timer behind. -/
theorem gw_c9_timer_always_disarmed (reqs : List RequestInput) :
    (runAll reqs).all (fun o => timerDisarmed (outcomeTimer o)) = true := by
  induction reqs with
  | nil => rfl
  | cons i rest ih =>
    simp only [runAll, List.map_cons, List.all_cons, Bool.and_eq_true]
    exact ⟨processRequest_timer_disarmed i.endpoint i.authOutcome i.state0 i.parsedUrl
      i.reqBody i.upstream i.timedOut, ih⟩

/-! ### C6 amended -/

/-- Helper: the relay of a settled non-ok response through a fetch call
carrying no abort signal (as every call the source builds does). -/
theorem afterFetch_non_ok
    (e : Endpoint) (call : FetchCall) (r : UpstreamResponse) (t : Bool)
    (hsig : call.signal = none) (hok : respOk r = false) :
    afterFetch e call (UpstreamOutcome.ok r) t =
      Outcome.done
        { status := r.status,
          body := if e.forwardError then none
                  else some (BodyVal.envelope r.statusText r.bodyStream),
          calls := [call], logged := false, timer := TimerState.armed } := by
  simp [afterFetch, fetchSettle, hsig, hok]

/-- C6 amended: for every forwarded request (any method and body — the
hypothesis says only that the handler actually issued an upstream call)
whose upstream response has a non-success status, the client status
equals the upstream status; when `forwardError` is not set the body is
the envelope of the upstream status text and body; when `forwardError`
is set the empty branch of the source sets no body at all — the original
upstream body is NOT passed through. -/
theorem gw_c6_non_ok_relay
    (e : Endpoint) (state : List (String × JsVal)) (parsedUrl : Option String)
    (reqBody : List (String × JsVal)) (r : UpstreamResponse) (timedOut : Bool)
    (hok : respOk r = false)
    (hfwd : outcomeCalls (handler e state parsedUrl reqBody (UpstreamOutcome.ok r) timedOut) ≠ []) :
    ∃ call, handler e state parsedUrl reqBody (UpstreamOutcome.ok r) timedOut =
      Outcome.done
        { status := r.status,
          body := if e.forwardError then none
                  else some (BodyVal.envelope r.statusText r.bodyStream),
          calls := [call], logged := false, timer := TimerState.cleared } := by
  cases hres : resolvePathCode e state parsedUrl with
  | thrown =>
    simp only [handler, hres, handlerAfterResolve] at hfwd
    simp [outcomeCalls] at hfwd
  | ok u =>
    simp only [handler, hres, handlerAfterResolve] at hfwd ⊢
    unfold handlerTry at hfwd ⊢
    by_cases hm : (jsToLower e.method == "post" || jsToLower e.method == "put" ||
        jsToLower e.method == "patch") = true
    · rw [if_pos hm] at hfwd ⊢
      rcases hbr : e.bodyRequired with _ | req
      · simp only [hbr] at hfwd ⊢
        exact ⟨postFetchCall u e reqBody,
          by rw [afterFetch_non_ok e (postFetchCall u e reqBody) r timedOut rfl hok]; rfl⟩
      · simp only [hbr] at hfwd ⊢
        by_cases hlt : matchedParamsCount reqBody req < req.length
        · rw [if_pos hlt] at hfwd
          simp [finallyClear, outcomeCalls] at hfwd
        · rw [if_neg hlt] at hfwd ⊢
          exact ⟨postFetchCall u e reqBody,
            by rw [afterFetch_non_ok e (postFetchCall u e reqBody) r timedOut rfl hok]; rfl⟩
    · rw [if_neg hm] at hfwd ⊢
      by_cases hg : (jsToLower e.method == "get" || jsToLower e.method == "delete") = true
      · rw [if_pos hg] at hfwd ⊢
        exact ⟨getFetchCall u e,
          by rw [afterFetch_non_ok e (getFetchCall u e) r timedOut rfl hok]; rfl⟩
      · rw [if_neg hg] at hfwd
        simp [finallyClear, outcomeCalls] at hfwd

/-- Witness for C6 amended: upstream 404 with `forwardError` unset gives
the envelope with client status 404. -/
theorem gw_c6_non_ok_relay_witness :
    respOk resp404oops = false ∧
    ∃ call, handler epEnvelope [] (some "/e") [] (UpstreamOutcome.ok resp404oops) false =
      Outcome.done
        { status := 404,
          body := some (BodyVal.envelope "Not Found" (JsVal.str "oops")),
          calls := [call], logged := false,
          timer := TimerState.cleared } :=
  ⟨by decide,
    gw_c6_non_ok_relay epEnvelope [] (some "/e") [] resp404oops false
      (by decide) (by decide)⟩

/-! ### C4 -/

/-- Helper: `indexOf` never returns anything below -1. -/
theorem jsIndexOf_ge (l : List String) (k : String) : -1 ≤ jsIndexOf l k := by
  induction l with
  | nil => simp [jsIndexOf]
  | cons s rest ih =>
    by_cases h : (s == k) = true
    · simp [jsIndexOf, h]
    · by_cases hr : (jsIndexOf rest k == -1) = true
      · simp [jsIndexOf, h, hr]
      · simp only [jsIndexOf, h, hr, if_false]
        omega

/-- Helper: `indexOf` exceeds -1 exactly when the key is present. -/
theorem jsIndexOf_pos_iff (l : List String) (k : String) :
    -1 < jsIndexOf l k ↔ listContainsStr l k = true := by
  induction l with
  | nil => simp [jsIndexOf, listContainsStr]
  | cons s rest ih =>
    by_cases h : (s == k) = true
    · have hstep : jsIndexOf (s :: rest) k = 0 := by simp [jsIndexOf, h]
      simp [listContainsStr, h, hstep]
    · by_cases hr : (jsIndexOf rest k == -1) = true
      · have hv : jsIndexOf rest k = -1 := by simpa using hr
        have hstep : jsIndexOf (s :: rest) k = -1 := by simp [jsIndexOf, h, hv]
        simp only [listContainsStr, h, Bool.false_eq_true, Bool.false_or]
        constructor
        · intro hlt
          rw [hstep] at hlt
          omega
        · intro hc
          have hpos := ih.2 hc
          omega
      · have hne : jsIndexOf rest k ≠ -1 := by simpa using hr
        have hge := jsIndexOf_ge rest k
        have hstep : jsIndexOf (s :: rest) k = jsIndexOf rest k + 1 := by
          simp [jsIndexOf, h, hne]
        simp only [listContainsStr, h, Bool.false_eq_true, Bool.false_or]
        rw [hstep, ← ih]
        omega

/-- Helper: indexing the key list at `indexOf` of a present key gives
back that key. -/
theorem getD_jsIndexOf (l : List String) (k : String)
    (h : listContainsStr l k = true) :
    l.getD (jsIndexOf l k).toNat "" = k := by
  induction l with
  | nil => simp [listContainsStr] at h
  | cons s rest ih =>
    by_cases hs : (s == k) = true
    · have hv : s = k := by simpa using hs
      simp [jsIndexOf, hs, hv]
    · have h2 : listContainsStr rest k = true := by
        simpa [listContainsStr, hs] using h
      have hpos : -1 < jsIndexOf rest k := (jsIndexOf_pos_iff rest k).2 h2
      have hne : jsIndexOf rest k ≠ -1 := by omega
      have hstep : jsIndexOf (s :: rest) k = jsIndexOf rest k + 1 := by
        simp [jsIndexOf, hs, hne]
      have htn : (jsIndexOf rest k + 1).toNat = (jsIndexOf rest k).toNat + 1 := by omega
      rw [hstep, htn, List.getD_cons_succ]
      exact ih h2

/-- Helper: on well-formed required lists (no empty-string type name),
the source's counting loop computes exactly the specification's
satisfied-entry count. -/
theorem matchedCount_eq_spec (body : List (String × JsVal)) (req : List ReqParam)
    (hwf : req.all (fun rp => rp.val != some "") = true) :
    matchedParamsCount body req = specSatisfiedCount body req := by
  induction req with
  | nil => rfl
  | cons rp rest ih =>
    rw [List.all_cons, Bool.and_eq_true] at hwf
    have hrest := ih hwf.2
    simp only [matchedParamsCount, specSatisfiedCount, hrest]
    congr 1
    by_cases hc : listContainsStr (body.map Prod.fst) rp.key = true
    · have hpos : -1 < jsIndexOf (body.map Prod.fst) rp.key :=
        (jsIndexOf_pos_iff _ _).2 hc
      have hgd := getD_jsIndexOf (body.map Prod.fst) rp.key hc
      rw [if_pos hpos, hgd]
      cases hv : rp.val with
      | none => simp [specEntrySatisfied, hc, hv]
      | some t =>
        have ht : (t == "") = false := by
          have := hwf.1
          rw [hv] at this
          simpa using this
        simp [specEntrySatisfied, hc, hv, ht]
    · have hneg : ¬ -1 < jsIndexOf (body.map Prod.fst) rp.key := by
        rw [jsIndexOf_pos_iff]
        simpa using hc
      rw [if_neg hneg]
      simp [specEntrySatisfied, hc]

/-- Helper: whatever the upstream does, the forwarding branch issues
exactly its one fetch call. -/
theorem afterFetch_calls (e : Endpoint) (c : FetchCall) (up : UpstreamOutcome)
    (t : Bool) : outcomeCalls (finallyClear (afterFetch e c up t)) = [c] := by
  unfold afterFetch
  repeat' split
  all_goals rfl

/-- C4: for a post/put/patch endpoint with a non-empty well-formed
`body.required` list and a resolvable path, if fewer entries are
satisfied (key present and, when a type name is given, `typeof` equal to
it) than required, the client receives exactly 403 with the generic
message and no upstream call is made; if all entries are satisfied, the
request proceeds to forwarding with its single fetch call.  The source's
`indexOf`-based loop counts exactly the satisfied entries, so the check
is atomic. -/
theorem gw_c4_body_validation_atomic
    (e : Endpoint) (state : List (String × JsVal)) (parsedUrl : Option String)
    (reqBody : List (String × JsVal)) (upstream : UpstreamOutcome) (timedOut : Bool)
    (u : String) (req : List ReqParam)
    (hm : (jsToLower e.method == "post" || jsToLower e.method == "put" ||
      jsToLower e.method == "patch") = true)
    (hreq : e.bodyRequired = some req)
    (hne : req ≠ [])
    (hwf : req.all (fun rp => rp.val != some "") = true)
    (hres : resolvePathCode e state parsedUrl = ResolveResult.ok u) :
    (specSatisfiedCount reqBody req < req.length →
      handler e state parsedUrl reqBody upstream timedOut =
        Outcome.done
          { status := 403,
            body := some (BodyVal.text "Request missing expected body parameters"),
            calls := [], logged := false, timer := TimerState.cleared })
    ∧ (specSatisfiedCount reqBody req = req.length →
      outcomeCalls (handler e state parsedUrl reqBody upstream timedOut) =
        [postFetchCall u e reqBody]) := by
  have hcnt := matchedCount_eq_spec reqBody req hwf
  constructor
  · intro hlt
    have hlt2 : matchedParamsCount reqBody req < req.length := by
      rw [hcnt]
      exact hlt
    simp [handler, hres, handlerAfterResolve, handlerTry, hm, hreq, hlt2, finallyClear]
  · intro heq
    have hnlt : ¬ matchedParamsCount reqBody req < req.length := by
      rw [hcnt, heq]
      omega
    simp [handler, hres, handlerAfterResolve, handlerTry, hm, hreq, hnlt]
    exact afterFetch_calls e (postFetchCall u e reqBody) upstream timedOut

/-- Witness for C4 at the specification's own example: required
`[\x7bname: "string"\x7d, \x7bage: null\x7d]`, body missing `age` gives
403 with no call; full body proceeds to the forwarding call. -/
theorem gw_c4_body_validation_atomic_witness :
    (handler epPostReq [] (some "/things") [("name", JsVal.str "Alice")]
        (UpstreamOutcome.ok resp200hi) false =
      Outcome.done
        { status := 403,
          body := some (BodyVal.text "Request missing expected body parameters"),
          calls := [], logged := false, timer := TimerState.cleared })
    ∧ (outcomeCalls (handler epPostReq [] (some "/things")
        [("name", JsVal.str "Alice"), ("age", JsVal.num 30)]
        (UpstreamOutcome.ok resp200hi) false) =
      [postFetchCall "http://up/things" epPostReq
        [("name", JsVal.str "Alice"), ("age", JsVal.num 30)]]) :=
  ⟨(gw_c4_body_validation_atomic epPostReq [] (some "/things")
      [("name", JsVal.str "Alice")] (UpstreamOutcome.ok resp200hi) false
      "http://up/things"
      [{ key := "name", val := some "string" }, { key := "age", val := none }]
      (by decide) (by decide) (by decide) (by decide) (by decide)).1 (by decide),
   (gw_c4_body_validation_atomic epPostReq [] (some "/things")
      [("name", JsVal.str "Alice"), ("age", JsVal.num 30)]
      (UpstreamOutcome.ok resp200hi) false "http://up/things"
      [{ key := "name", val := some "string" }, { key := "age", val := none }]
      (by decide) (by decide) (by decide) (by decide) (by decide)).2 (by decide)⟩
